import Mathlib

set_option maxHeartbeats 1600000

/-!
Shallow embedding of the Cloud-native Image Service (serverless/lambda/reader.py
and serverless/lambda/processor.py) together with theorems settling the frozen
claims about its specification.

External collaborators (boto3 DynamoDB/S3 clients, the redis client, the json
stdlib, PIL) are modelled as oracles in an environment record or, where a claim
is decided by library behaviour the repository does not contain, by a definition
modelled from the spec (marked as such in its doc comment).
-/

-- ===== Python string primitives (str methods, modelled over List Char) =====

/-- Python `str.lower` on one character (ASCII letters). -/
def char_lower (c : Char) : Char :=
  if 65 ≤ c.toNat ∧ c.toNat ≤ 90 then Char.ofNat (c.toNat + 32) else c

/-- Python `str.lower`. -/
def str_lower (s : String) : String :=
  String.mk (s.toList.map char_lower)

/-- Python `str.endswith` for a single suffix. -/
def str_ends_with (s sfx : String) : Bool :=
  let a := s.toList
  let b := sfx.toList
  a.drop (a.length - b.length) == b

/-- Python `str.startswith`. -/
def str_starts_with (s pre : String) : Bool :=
  s.toList.take pre.toList.length == pre.toList

-- ===== Reader data model (reader.py) =====

/-- The `ttl` attribute of a DynamoDB item as `_cache_ttl_from_item` sees it:
absent (`item.get("ttl")` is None), a numeric epoch value, or a value on which
`int(raw)` raises (malformed). -/
inductive TtlAttr
  | absent
  | num (t : Int)
  | malformed
  deriving DecidableEq

/-- A DynamoDB metadata item, projected onto the attributes reader.py consults:
the primary key `pk`, the `thumb` attribute (`item.get("thumb")`, possibly
absent) and the `ttl` attribute. Items returned by DynamoDB always carry at
least their key attribute, hence are truthy as Python dicts. -/
structure DdbItem where
  pk : String
  thumb : Option String
  ttl : TtlAttr
  deriving DecidableEq

/-- A Python string value flowing through the reader: either a literal string
or `json.dumps(item, default=str)` of a DynamoDB item. `json.dumps` is Python
stdlib (an external collaborator); it is modelled opaquely by the `jsonItem`
constructor, which is the only way the reader ever serializes a record. -/
inductive JStr
  | lit (s : String)
  | jsonItem (it : DdbItem)
  deriving DecidableEq

/-- Python truthiness of such a string: `""` is falsy; the `json.dumps` output
of a (nonempty) dict is never empty, hence truthy. -/
def truthy : JStr → Bool
  | .lit s => s != ""
  | .jsonItem _ => true

/-- Modelled from the spec and the json stdlib: `json.loads(cval).get("thumb")`
guarded by `try/except` (reader.py lines 239-245). Deserializing a serialized
item yields its `thumb` attribute; a literal string written by this system is
never the serialization of a record (the only literal ever cached is "1", for
which `json.loads` yields an int and `.get` raises, caught by the except), so
the guarded deserialization yields nothing. -/
def json_loads_thumb : JStr → Option (Option String)
  | .jsonItem it => some it.thumb
  | .lit _ => none

/-- Python `dict.update` on an association list: later pairs override earlier
pairs with the same key. -/
def dictUpdate (base over : List (String × String)) : List (String × String) :=
  over.foldl (fun acc kv => acc.filter (fun p => p.1 != kv.1) ++ [kv]) base

/-- The response dict built by `_resp` (reader.py lines 43-47): status code,
headers (a Content-Type entry then the caller's overrides) and `body or ""`. -/
structure Response where
  statusCode : Nat
  headers : List (String × String)
  body : JStr
  deriving DecidableEq

/-- `_resp(status, body, headers, ctype)`. -/
def resp (status : Nat) (body : JStr) (headers : List (String × String))
    (ctype : String) : Response :=
  { statusCode := status,
    headers := dictUpdate [("Content-Type", ctype)] headers,
    body := if truthy body then body else JStr.lit "" }

/-- `_json(data, status)`: a JSON body with the default content type. -/
def jsonResp (body : JStr) (status : Nat) : Response :=
  resp status body [] "application/json"

def json_not_found : Response :=
  jsonResp (JStr.lit "\x7b\"error\": \"not found\"\x7d") 404

def json_internal_error : Response :=
  jsonResp (JStr.lit "\x7b\"error\": \"internal server error\"\x7d") 500

-- ===== Reader environment: the external world of one invocation =====

/-- Outcome of one raw `client.get(key)` call (the redis client is an external
collaborator): an exception, a missing key, or a stored string value. -/
inductive CacheRead
  | err
  | miss
  | val (s : JStr)
  deriving DecidableEq

/-- Outcome of one `_table().get_item(Key=...)` call against DynamoDB: an
exception, no item, or a found item. -/
inductive DdbResult
  | err
  | notFound
  | found (it : DdbItem)
  deriving DecidableEq

/-- The external world seen by one reader invocation: feature flags, the
memoized redis client (present or not), the outcome of each cache read, whether
a cache write raises, the outcomes of the successive DynamoDB calls of the
invocation (indexed by how many were made before), the presign oracle, and the
current time `int(time.time())`. -/
structure Env where
  enableRedis : Bool
  enableCloudfront : Bool
  cfDomain : String
  clientAvailable : Bool
  cacheGet : String → CacheRead
  cacheWriteFails : String → Bool
  ddb : Nat → DdbResult
  presign : String → Except Unit String
  now : Int

/-- `_get_redis_client()` returns a client only when `ENABLE_REDIS` is set and
a reachable client could be built (reader.py lines 62-95). -/
def get_redis_client (env : Env) : Bool :=
  env.enableRedis && env.clientAvailable

/-- `_redis_get(client, key)` (reader.py lines 98-104): any exception is caught
and logged, yielding None, exactly like a missing key. -/
def redis_get (env : Env) (k : String) : Option JStr :=
  match env.cacheGet k with
  | .val s => some s
  | _ => none

/-- Filter an optional value through Python truthiness (`if cval:`). -/
def getTruthy : Option JStr → Option JStr
  | some v => if truthy v then some v else none
  | none => none

/-- `_cache_ttl_from_item(item)` (reader.py lines 117-129): 300 when the ttl
attribute is absent, the clamp `max(60, min(ttl_epoch - now, 3600))` when it is
numeric, and 300 via the except branch when `int(raw)` raises. -/
def cache_ttl_from_item (now : Int) (it : DdbItem) : Int :=
  match it.ttl with
  | .absent => 300
  | .num t => max 60 (min (t - now) 3600)
  | .malformed => 300

/-- Side effects of one reader invocation: how many DynamoDB calls were made,
which cache keys were read (in order), and which cache writes were attempted
(`_redis_setex` swallows its own failures, so attempts are what is visible). -/
structure Effects where
  ddbCalls : Nat := 0
  cacheReads : List String := []
  cacheWrites : List (String × Int × JStr) := []
  deriving DecidableEq

/-- `_meta_get_via_ddb(pk)` (reader.py lines 136-145), performing the `i`-th
DynamoDB call of the invocation. -/
def meta_get_via_ddb (env : Env) (i : Nat) : Response :=
  match env.ddb i with
  | .err => json_internal_error
  | .notFound => json_not_found
  | .found it => jsonResp (JStr.jsonItem it) 200

/-- Continuation of `_meta_get_via_redis` after the positive entry missed
(reader.py lines 162-176): negative check, then DynamoDB with write-back; a
DynamoDB exception is caught and delegated to `_meta_get_via_ddb`, which makes
a second DynamoDB call. The positive read of `meta:<pk>` has already happened,
so it heads the read log. -/
def meta_neg_and_ddb (env : Env) (pk : String) : Response × Effects :=
  let nkey := "meta404:" ++ pk
  let ckey := "meta:" ++ pk
  match getTruthy (redis_get env nkey) with
  | some _ => (json_not_found, { cacheReads := [ckey, nkey] })
  | none =>
    match env.ddb 0 with
    | .err => (meta_get_via_ddb env 1, { ddbCalls := 2, cacheReads := [ckey, nkey] })
    | .notFound =>
      (json_not_found,
       { ddbCalls := 1, cacheReads := [ckey, nkey],
         cacheWrites := [(nkey, 30, JStr.lit "1")] })
    | .found it =>
      (jsonResp (JStr.jsonItem it) 200,
       { ddbCalls := 1, cacheReads := [ckey, nkey],
         cacheWrites := [(ckey, cache_ttl_from_item env.now it, JStr.jsonItem it)] })

/-- `_meta_get_via_redis(pk)` (reader.py lines 148-179): no client delegates to
DynamoDB; otherwise positive entry first, then the continuation. -/
def meta_get_via_redis (env : Env) (pk : String) : Response × Effects :=
  if get_redis_client env then
    match getTruthy (redis_get env ("meta:" ++ pk)) with
    | some cval => (resp 200 cval [] "application/json", { cacheReads := ["meta:" ++ pk] })
    | none => meta_neg_and_ddb env pk
  else
    (meta_get_via_ddb env 0, { ddbCalls := 1 })

/-- `_handle_meta(key, method)` (reader.py lines 182-201). -/
def handle_meta (env : Env) (key method : String) : Response × Effects :=
  if method = "GET" then
    if env.enableRedis then meta_get_via_redis env key
    else (meta_get_via_ddb env 0, { ddbCalls := 1 })
  else if method = "HEAD" then
    match env.ddb 0 with
    | .err => (json_internal_error, { ddbCalls := 1 })
    | .notFound => (json_not_found, { ddbCalls := 1 })
    | .found _ =>
      (resp 200 (JStr.lit "") [("Content-Type", "application/json")] "application/json",
       { ddbCalls := 1 })
  else
    (resp 405 (JStr.lit "\x7b\"error\": \"invalid method\"\x7d")
      [("Allow", "GET, HEAD")] "application/json", {})

-- ===== IMG branch (reader.py lines 203-288) =====

/-- `_img_get_via_s3(key)` (reader.py lines 207-218): a presigned URL redirect,
or 500 when presigning raises. -/
def img_get_via_s3 (env : Env) (key : String) : Response :=
  match env.presign key with
  | .error _ => json_internal_error
  | .ok url => resp 302 (JStr.lit "") [("Location", url)] "application/json"

/-- `_img_get_via_cf(key)` (reader.py lines 221-226). -/
def img_get_via_cf (env : Env) (key : String) : Response :=
  if env.cfDomain = "" then
    jsonResp (JStr.lit "\x7b\"error\": \"cf domain not configured\"\x7d") 500
  else
    resp 302 (JStr.lit "")
      [("Location", "https://" ++ env.cfDomain ++ "/" ++
        String.mk (key.toList.dropWhile (fun c => c == '/')))]
      "application/json"

/-- DynamoDB fallback of `_resolve_thumb_key` (reader.py lines 252-267):
`clientPresent` guards the write-backs, `reads` is the cache-read log
accumulated before the fallback. -/
def resolve_via_ddb (env : Env) (pk : String) (clientPresent : Bool)
    (reads : List String) : (Option String × Option Response) × Effects :=
  let nkey := "meta404:" ++ pk
  let ckey := "meta:" ++ pk
  match env.ddb 0 with
  | .err => ((none, some json_internal_error), { ddbCalls := 1, cacheReads := reads })
  | .notFound =>
    ((none, some json_not_found),
     { ddbCalls := 1, cacheReads := reads,
       cacheWrites := if clientPresent then [(nkey, 30, JStr.lit "1")] else [] })
  | .found it =>
    ((it.thumb, none),
     { ddbCalls := 1, cacheReads := reads,
       cacheWrites :=
         if clientPresent then
           [(ckey, cache_ttl_from_item env.now it, JStr.jsonItem it)]
         else [] })

/-- Continuation of `_resolve_thumb_key` after the positive entry yielded no
usable thumb key (reader.py lines 246-248 then fallback): negative check, then
DynamoDB. The positive read of `meta:<pk>` has already happened. -/
def resolve_after_pos (env : Env) (pk : String) : (Option String × Option Response) × Effects :=
  let nkey := "meta404:" ++ pk
  let ckey := "meta:" ++ pk
  match getTruthy (redis_get env nkey) with
  | some _ => ((none, some json_not_found), { cacheReads := [ckey, nkey] })
  | none => resolve_via_ddb env pk true [ckey, nkey]

/-- `_resolve_thumb_key(pk)` (reader.py lines 229-267). A truthy positive entry
that deserializes to a record with a truthy `thumb` returns it; any other
positive outcome falls through to the negative check and the DynamoDB
fallback. -/
def resolve_thumb_key (env : Env) (pk : String) : (Option String × Option Response) × Effects :=
  if get_redis_client env then
    match getTruthy (redis_get env ("meta:" ++ pk)) with
    | some cval =>
      match json_loads_thumb cval with
      | some (some t) =>
        if t != "" then ((some t, none), { cacheReads := ["meta:" ++ pk] })
        else resolve_after_pos env pk
      | _ => resolve_after_pos env pk
    | none => resolve_after_pos env pk
  else
    resolve_via_ddb env pk false []

/-- `_handle_img(key, method)` (reader.py lines 270-288). -/
def handle_img (env : Env) (key method : String) : Response × Effects :=
  if method ≠ "GET" ∧ method ≠ "HEAD" then
    (resp 405 (JStr.lit "\x7b\"error\": \"invalid method\"\x7d")
      [("Allow", "GET, HEAD")] "application/json", {})
  else
    let r := resolve_thumb_key env key
    match r.1.2 with
    | some e => (e, r.2)
    | none =>
      match r.1.1 with
      | none => (json_not_found, r.2)
      | some t =>
        if t = "" then (json_not_found, r.2)
        else
          let base := if env.enableCloudfront then img_get_via_cf env t
                      else img_get_via_s3 env t
          if method = "HEAD" then
            let stripped := { base with body := JStr.lit "" }
            (if stripped.statusCode = 200 then { stripped with statusCode := 204 }
             else stripped, r.2)
          else (base, r.2)

-- ===== Routing (reader.py lines 54-59 and 291-312) =====

/-- A Lambda invocation event as `_extract` reads it: either a well-formed
event dict (each field optionally present) or an event on which the attribute
accesses of `_extract` raise (for example an event that is not a dict). -/
inductive ReqEvent
  | ok (rawPath : Option String) (path : Option String)
      (rcMethod : Option String) (httpMethod : Option String)
      (pathParams : Option (List (String × String)))
  | bad

/-- Python `a or b` on optional strings: the first operand wins unless it is
falsy (absent or empty). -/
def pyOr (a : Option String) (b : Option String) : Option String :=
  match a with
  | some s => if s = "" then b else some s
  | none => b

/-- Python `a or d` with a string default. -/
def pyOrD (a : Option String) (d : String) : String :=
  match a with
  | some s => if s = "" then d else s
  | none => d

/-- `_extract(event)` (reader.py lines 54-59); raises on a malformed event. -/
def extract : ReqEvent → Except Unit (String × Option String × String)
  | .bad => .error ()
  | .ok rawPath path rcMethod httpMethod pathParams =>
    let p := pyOrD rawPath (path.getD "")
    let m := pyOrD (pyOr rcMethod httpMethod) "GET"
    let ps := pathParams.getD []
    let k := pyOr (ps.lookup "key") (ps.lookup "proxy")
    .ok (p, k, m)

/-- The `handler(event, context)` of reader.py (lines 291-312): routing with a
single catch-all `except` answering 400. -/
def reader_handler (env : Env) (e : ReqEvent) : Response × Effects :=
  match extract e with
  | .error _ => (jsonResp (JStr.lit "\x7b\"error\": \"invalid request\"\x7d") 400, {})
  | .ok (path, k, method) =>
    if str_starts_with path "/health" ∧ method = "GET" then
      (jsonResp (JStr.lit "\x7b\"ok\": true\x7d") 200, {})
    else
      match getTruthy (k.map JStr.lit) with
      | none => (jsonResp (JStr.lit "\x7b\"error\": \"missing key\"\x7d") 400, {})
      | some _ =>
        let key := k.getD ""
        if str_starts_with path "/meta" then handle_meta env key method
        else if str_starts_with path "/img" then handle_img env key method
        else (json_not_found, {})

-- ===== Ingest pipeline (processor.py) =====

/-- `IMG_SUFFIXES` (processor.py line 17). -/
def IMG_SUFFIXES : List String :=
  [".jpg", ".jpeg", ".png", ".webp", ".bmp", ".tiff"]

/-- The allow-list test `lower.endswith(IMG_SUFFIXES)` (processor.py
lines 36-37). -/
def is_image_key (key : String) : Bool :=
  IMG_SUFFIXES.any (fun sfx => str_ends_with (str_lower key) sfx)

/-- `os.path.basename`: everything after the last `/`. -/
def basename (p : String) : String :=
  String.mk (p.toList.foldl (fun acc ch => if ch = '/' then [] else acc ++ [ch]) [])

/-- Index of the last occurrence of `c`, if any. -/
def last_idx_of (c : Char) : List Char → Option Nat
  | [] => none
  | x :: xs =>
    match last_idx_of c xs with
    | some i => some (i + 1)
    | none => if x = c then some 0 else none

/-- The stem component of `os.path.splitext` on a path without separators:
split at the last dot unless every character before it is a dot (a leading-dots
name such as `.bashrc` has no extension). -/
def splitext_stem (b : String) : String :=
  let cs := b.toList
  match last_idx_of '.' cs with
  | none => b
  | some i => if (cs.take i).all (fun ch => ch == '.') then b else String.mk (cs.take i)

/-- The derivation `out_key = f"resized/\x7bbase\x7d-800.jpg"` (processor.py
lines 41-42). -/
def out_key (key : String) : String :=
  "resized/" ++ splitext_stem (basename key) ++ "-800.jpg"

/-- The DynamoDB item written by the processor (processor.py lines 61-68). -/
structure MetaItem where
  pk : String
  thumb : String
  formats : List String
  updatedAt : Int
  ttl : Int
  deriving DecidableEq

/-- The item the processor builds for a source key at time `now`. -/
def metadata_item (key : String) (now : Int) : MetaItem :=
  { pk := key, thumb := out_key key, formats := ["jpg"],
    updatedAt := now, ttl := now + 7 * 24 * 3600 }

/-- One trigger record, carrying the bucket name and the object key after
`urllib.parse.unquote` (processor.py lines 31-33). -/
structure S3Rec where
  bucket : String
  key : String
  deriving DecidableEq

/-- The external world of one processor invocation. Image bytes are opaque
(represented by a `Nat` content id); each oracle either succeeds or raises:
`fetch` is `s3.get_object` + read, `transform` is `_resize_to_jpeg` (PIL can
raise on undecodable bytes), `putObject` is `s3.put_object`, `putItem` is
`table.put_item`. -/
structure IngestEnv where
  dstBucket : String
  fetch : String → String → Except Unit Nat
  transform : Nat → Except Unit Nat
  putObject : String → String → Nat → Except Unit Unit
  putItem : MetaItem → Except Unit Unit

/-- A side effect committed by the processor. -/
inductive IngestEffect
  | putObject (bucket key : String) (bytes : Nat)
  | putItem (item : MetaItem)
  deriving DecidableEq

/-- The body of the processor loop for one record (processor.py lines 31-71):
the committed effects and whether the record ran to completion (`false` means
an exception escaped, aborting the invocation). A non-image key is skipped
(`continue`), which counts as completion. -/
def process_record (env : IngestEnv) (now : Int) (r : S3Rec) :
    List IngestEffect × Bool :=
  if is_image_key r.key then
    match env.fetch r.bucket r.key with
    | .error _ => ([], false)
    | .ok body =>
      match env.transform body with
      | .error _ => ([], false)
      | .ok outBuf =>
        match env.putObject env.dstBucket (out_key r.key) outBuf with
        | .error _ => ([], false)
        | .ok _ =>
          match env.putItem (metadata_item r.key now) with
          | .error _ => ([IngestEffect.putObject env.dstBucket (out_key r.key) outBuf], false)
          | .ok _ =>
            ([IngestEffect.putObject env.dstBucket (out_key r.key) outBuf,
              IngestEffect.putItem (metadata_item r.key now)], true)
  else ([], true)

/-- Whether the invocation returned `\x7b"status": "done"\x7d` or an exception
escaped the handler. -/
inductive IngestOutcome
  | done
  | raised
  deriving DecidableEq

/-- The `handler(event, context)` of processor.py (lines 29-73): records are
processed in order; the first uncaught exception aborts the loop, keeping the
effects committed so far. -/
def processor_handler (env : IngestEnv) (now : Int) :
    List S3Rec → IngestOutcome × List IngestEffect
  | [] => (.done, [])
  | r :: rest =>
    let step := process_record env now r
    if step.2 then
      let tail := processor_handler env now rest
      (tail.1, step.1 ++ tail.2)
    else (.raised, step.1)

/-- All metadata items written in an effect log, in order. -/
def written_items (es : List IngestEffect) : List MetaItem :=
  es.filterMap (fun e => match e with
    | .putItem i => some i
    | _ => none)

-- ===== Image transform (processor.py lines 19-27) =====

/-- Modelled from the spec (section 4.4): the geometry of PIL
`Image.thumbnail((maxDim, maxDim))`, which the repository calls but does not
contain. The size is unchanged when both dimensions already fit; otherwise the
larger dimension is scaled to `maxDim` and the other follows the aspect ratio,
rounded to the nearest integer and kept at least 1. -/
def thumbnail_size (w h maxDim : Nat) : Nat × Nat :=
  if w ≤ maxDim ∧ h ≤ maxDim then (w, h)
  else if h ≤ w then (maxDim, max 1 ((maxDim * h + w / 2) / w))
  else (max 1 ((maxDim * w + h / 2) / h), maxDim)

/-- The JPEG artifact produced by `_resize_to_jpeg`: its dimensions and the
fixed encoder settings `quality=85, optimize=True` (processor.py line 25). -/
structure JpegOut where
  width : Nat
  height : Nat
  quality : Nat
  optimize : Bool
  deriving DecidableEq

/-- `_resize_to_jpeg` on a decodable image of dimensions `w x h` with the
default `max_size=(800, 800)` (processor.py lines 19-27). -/
def resize_to_jpeg (w h : Nat) : JpegOut :=
  { width := (thumbnail_size w h 800).1,
    height := (thumbnail_size w h 800).2,
    quality := 85,
    optimize := true }

-- ===== Claim-statement helpers =====

/-- The relation claim C1 asserts between the items written by two runs on the
same source key: every metadata record field except `updatedAt` agrees. -/
def same_except_updatedAt (a b : MetaItem) : Prop :=
  a.pk = b.pk ∧ a.thumb = b.thumb ∧ a.formats = b.formats ∧ a.ttl = b.ttl

instance (a b : MetaItem) : Decidable (same_except_updatedAt a b) := by
  unfold same_except_updatedAt
  infer_instance

/-- Modelled from the spec (section 4.3): the Lookup Resolver as the exact
projection of the Cache Layer response — on a record (status 200) project the
`thumb` field of the (deserialized) body, otherwise propagate the NotFound or
Error response unchanged. -/
def lookup_spec_projection (r : Response) : Option String × Option Response :=
  if r.statusCode = 200 then ((json_loads_thumb r.body).join, none)
  else (none, some r)

/-- Whether a response carries a Content-Type header entry. -/
def hasCT (r : Response) : Bool :=
  r.headers.any (fun p => p.1 == "Content-Type")

-- ===== Concrete worlds for witnesses and counterexamples =====

/-- A concrete metadata record. -/
def itA : DdbItem :=
  { pk := "a.jpg", thumb := some "resized/a-800.jpg", ttl := .absent }

/-- Cache enabled and reachable; both a positive entry (the serialized record)
and a not-yet-expired negative entry exist for `a.jpg`; the durable store
errors, so any durable access would be visible. -/
def envPosBoth : Env :=
  { enableRedis := true, enableCloudfront := false, cfDomain := "",
    clientAvailable := true,
    cacheGet := fun k =>
      if k = "meta:a.jpg" then .val (JStr.jsonItem itA)
      else if k = "meta404:a.jpg" then .val (JStr.lit "1") else .miss,
    cacheWriteFails := fun _ => false,
    ddb := fun _ => .err,
    presign := fun _ => .ok "https://example.com/presigned", now := 0 }

/-- Cache enabled and reachable but empty; the durable store errors on the
first call of the invocation and answers with the record on the second. -/
def envStoreFlaky : Env :=
  { enableRedis := true, enableCloudfront := false, cfDomain := "",
    clientAvailable := true,
    cacheGet := fun _ => .miss,
    cacheWriteFails := fun _ => false,
    ddb := fun i => if i = 0 then .err else .found itA,
    presign := fun _ => .ok "https://example.com/presigned", now := 0 }

/-- Cache enabled and reachable but empty; deterministic durable store holding
the record. -/
def envDet : Env :=
  { enableRedis := true, enableCloudfront := false, cfDomain := "",
    clientAvailable := true,
    cacheGet := fun _ => .miss,
    cacheWriteFails := fun _ => false,
    ddb := fun _ => .found itA,
    presign := fun _ => .ok "https://example.com/presigned", now := 0 }

/-- Cache enabled and reachable but empty; deterministic durable store with no
record. -/
def envDetMissing : Env :=
  { enableRedis := true, enableCloudfront := false, cfDomain := "",
    clientAvailable := true,
    cacheGet := fun _ => .miss,
    cacheWriteFails := fun _ => false,
    ddb := fun _ => .notFound,
    presign := fun _ => .ok "https://example.com/presigned", now := 0 }

/-- Cache disabled and unreachable; no record in the durable store. -/
def envNoRecord : Env :=
  { enableRedis := false, enableCloudfront := false, cfDomain := "",
    clientAvailable := false,
    cacheGet := fun _ => .miss,
    cacheWriteFails := fun _ => false,
    ddb := fun _ => .notFound,
    presign := fun _ => .ok "https://example.com/presigned", now := 0 }

/-- Cache enabled but every cache read raises and every cache write fails;
deterministic durable store holding the record. -/
def envCacheErr : Env :=
  { enableRedis := true, enableCloudfront := false, cfDomain := "",
    clientAvailable := true,
    cacheGet := fun _ => .err,
    cacheWriteFails := fun _ => true,
    ddb := fun _ => .found itA,
    presign := fun _ => .ok "https://example.com/presigned", now := 0 }

/-- An ingest world where every external call succeeds. -/
def ingestOkEnv : IngestEnv :=
  { dstBucket := "dst-bucket",
    fetch := fun _ _ => .ok 0,
    transform := fun b => .ok b,
    putObject := fun _ _ _ => .ok (),
    putItem := fun _ => .ok () }

/-- An ingest world where fetching `bad.jpg` raises and everything else
succeeds. -/
def ingestFailEnv : IngestEnv :=
  { dstBucket := "dst-bucket",
    fetch := fun _ k => if k = "bad.jpg" then .error () else .ok 0,
    transform := fun b => .ok b,
    putObject := fun _ _ _ => .ok (),
    putItem := fun _ => .ok () }

-- ===== Theorems =====

/-- Claim C8: for every metadata record and current time, `deriveCacheTTL`
(`_cache_ttl_from_item`) returns a value in [60, 3600] seconds — the clamp of
`expiresAt - now` when an expiry is present — and the default 300 seconds when
the expiry attribute is absent or malformed; as a total Lean function it never
fails. -/
theorem derive_cache_ttl_bounds (now : Int) (it : DdbItem) :
    60 ≤ cache_ttl_from_item now it ∧ cache_ttl_from_item now it ≤ 3600 ∧
    (it.ttl = TtlAttr.absent → cache_ttl_from_item now it = 300) ∧
    (it.ttl = TtlAttr.malformed → cache_ttl_from_item now it = 300) ∧
    (∀ t, it.ttl = TtlAttr.num t →
      cache_ttl_from_item now it = max 60 (min (t - now) 3600)) := by
  rcases it with ⟨pk, th, tl⟩
  cases tl with
  | absent =>
    refine ⟨by norm_num [cache_ttl_from_item], ⟨by norm_num [cache_ttl_from_item],
      ⟨fun _ => rfl, ⟨fun h => ?_, fun t h => ?_⟩⟩⟩⟩ <;> cases h
  | malformed =>
    refine ⟨by norm_num [cache_ttl_from_item], ⟨by norm_num [cache_ttl_from_item],
      ⟨fun h => ?_, ⟨fun _ => rfl, fun t h => ?_⟩⟩⟩⟩ <;> cases h
  | num t =>
    have h1 : (60 : Int) ≤ max 60 (min (t - now) 3600) := le_max_left _ _
    have h2 : max (60 : Int) (min (t - now) 3600) ≤ 3600 :=
      max_le (by norm_num) (min_le_right _ _)
    simp [cache_ttl_from_item, h1, h2]

/-- Witness for C8 at concrete inputs: an absent expiry yields the default
300, and an expiry far in the past still yields a value within bounds. -/
theorem derive_cache_ttl_bounds_witness :
    cache_ttl_from_item 1000 { pk := "k", thumb := none, ttl := TtlAttr.absent } = 300 ∧
    60 ≤ cache_ttl_from_item 1000 { pk := "k", thumb := none, ttl := TtlAttr.num 5 } ∧
    cache_ttl_from_item 1000 { pk := "k", thumb := none, ttl := TtlAttr.num 5 } ≤ 3600 :=
  ⟨(derive_cache_ttl_bounds 1000 { pk := "k", thumb := none, ttl := TtlAttr.absent }).2.2.1 rfl,
   (derive_cache_ttl_bounds 1000 { pk := "k", thumb := none, ttl := TtlAttr.num 5 }).1,
   (derive_cache_ttl_bounds 1000 { pk := "k", thumb := none, ttl := TtlAttr.num 5 }).2.1⟩

/-- Claim C7 (code-bug evidence): on a HEAD metadata request for an absent key
the handler mirrors the 404 status a GET would return, but — contradicting the
code's own comment "HEAD should mirror GET's status code but without a body"
(reader.py line 188) — the response body is the non-empty JSON error object,
not empty. The 200 case does return an empty body. -/
theorem head_meta_body_bug :
    (handle_meta envNoRecord "missing.jpg" "HEAD").1.statusCode = 404 ∧
    (handle_meta envNoRecord "missing.jpg" "GET").1.statusCode = 404 ∧
    (handle_meta envNoRecord "missing.jpg" "HEAD").1.body
      = JStr.lit "\x7b\"error\": \"not found\"\x7d" ∧
    (handle_meta envNoRecord "missing.jpg" "HEAD").1.body ≠ JStr.lit "" ∧
    (handle_meta envDet "a.jpg" "HEAD").1.statusCode = 200 ∧
    (handle_meta envDet "a.jpg" "HEAD").1.body = JStr.lit "" := by
  exact ⟨by decide, by decide, by decide, by decide, by decide, by decide⟩

/-- Claim C1 (counterexample): running the pipeline twice on the same source
key at two different times writes metadata items that differ in `ttl`
(the record expiry, `now + 7 days`) as well as in `updatedAt`, so the two
records do not agree on every field except `updatedAt`. -/
theorem ingest_idempotence_counterexample :
    written_items (processor_handler ingestOkEnv 0 [{ bucket := "src", key := "photos/cat.jpg" }]).2
      = [metadata_item "photos/cat.jpg" 0] ∧
    written_items (processor_handler ingestOkEnv 1 [{ bucket := "src", key := "photos/cat.jpg" }]).2
      = [metadata_item "photos/cat.jpg" 1] ∧
    (metadata_item "photos/cat.jpg" 0).ttl ≠ (metadata_item "photos/cat.jpg" 1).ttl ∧
    ¬ same_except_updatedAt (metadata_item "photos/cat.jpg" 0)
        (metadata_item "photos/cat.jpg" 1) := by
  exact ⟨by decide, by decide, by decide, by decide⟩

/-- A successful run on an allow-listed key writes exactly the item
`metadata_item key now`. -/
theorem process_record_success_writes (env : IngestEnv) (now : Int) (r : S3Rec)
    (himg : is_image_key r.key = true)
    (hok : (process_record env now r).2 = true) :
    written_items (process_record env now r).1 = [metadata_item r.key now] := by
  simp only [process_record, himg, if_true] at hok ⊢
  rcases hf : env.fetch r.bucket r.key with _ | body <;> simp only [hf] at hok ⊢
  · simp at hok
  rcases ht : env.transform body with _ | outb <;> simp only [ht] at hok ⊢
  · simp at hok
  rcases hp : env.putObject env.dstBucket (out_key r.key) outb with _ | u <;>
    simp only [hp] at hok ⊢
  · simp at hok
  rcases hi : env.putItem (metadata_item r.key now) with _ | v <;>
    simp only [hi] at hok ⊢
  · simp at hok
  rfl

/-- Claim C1 (amended): for every allow-listed source key, two completed runs
of the per-record pipeline (at any times, under any succeeding external
worlds) write the same `thumbnailKey` — the deterministic
`resized/<stem>-800.jpg` of the key's base filename — and metadata records
that agree on every field except `updatedAt` and the record expiry `ttl`
(`expiresAt`), both of which are recomputed from the current time. -/
theorem ingest_idempotence_amended (env1 env2 : IngestEnv) (n1 n2 : Int) (r : S3Rec)
    (himg : is_image_key r.key = true)
    (h1 : (process_record env1 n1 r).2 = true)
    (h2 : (process_record env2 n2 r).2 = true) :
    written_items (process_record env1 n1 r).1 = [metadata_item r.key n1] ∧
    written_items (process_record env2 n2 r).1 = [metadata_item r.key n2] ∧
    (metadata_item r.key n1).pk = (metadata_item r.key n2).pk ∧
    (metadata_item r.key n1).thumb = (metadata_item r.key n2).thumb ∧
    (metadata_item r.key n1).formats = (metadata_item r.key n2).formats ∧
    (metadata_item r.key n1).thumb
      = "resized/" ++ splitext_stem (basename r.key) ++ "-800.jpg" :=
  ⟨process_record_success_writes env1 n1 r himg h1,
   process_record_success_writes env2 n2 r himg h2,
   rfl, rfl, rfl, rfl⟩

/-- Witness for C1 (amended) at a concrete key and two concrete times. -/
theorem ingest_idempotence_amended_witness :
    written_items (process_record ingestOkEnv 5 { bucket := "src", key := "a/b.png" }).1
      = [metadata_item "a/b.png" 5] ∧
    written_items (process_record ingestOkEnv 9 { bucket := "src", key := "a/b.png" }).1
      = [metadata_item "a/b.png" 9] ∧
    (metadata_item "a/b.png" 5).pk = (metadata_item "a/b.png" 9).pk ∧
    (metadata_item "a/b.png" 5).thumb = (metadata_item "a/b.png" 9).thumb ∧
    (metadata_item "a/b.png" 5).formats = (metadata_item "a/b.png" 9).formats ∧
    (metadata_item "a/b.png" 5).thumb
      = "resized/" ++ splitext_stem (basename "a/b.png") ++ "-800.jpg" :=
  ingest_idempotence_amended ingestOkEnv ingestOkEnv 5 9
    { bucket := "src", key := "a/b.png" } (by decide) (by decide) (by decide)

/-- Claim C2 (counterexample): in a batch whose first record fails at the
fetch step and whose second record would succeed on its own, the invocation
raises having processed nothing — the second record is never reached, so one
record's failure does prevent processing of subsequent records. -/
theorem batch_independence_counterexample :
    processor_handler ingestFailEnv 7
        [{ bucket := "src", key := "bad.jpg" }, { bucket := "src", key := "good.jpg" }]
      = (IngestOutcome.raised, []) ∧
    processor_handler ingestFailEnv 7 [{ bucket := "src", key := "good.jpg" }]
      = (IngestOutcome.done,
         [IngestEffect.putObject "dst-bucket" "resized/good-800.jpg" 0,
          IngestEffect.putItem (metadata_item "good.jpg" 7)]) := by
  exact ⟨by decide, by decide⟩

/-- Claim C2 (amended): records are processed strictly in order; a record that
completes (including one filtered out by the extension allow-list, which has no
effects at all) does not affect the processing of subsequent records, but the
first record on which an external step raises aborts the invocation with only
that record's partial effects — subsequent records in the batch are not
processed. -/
theorem batch_first_failure_aborts (env : IngestEnv) (now : Int) (r : S3Rec)
    (rest : List S3Rec) :
    ((process_record env now r).2 = true →
      processor_handler env now (r :: rest)
        = ((processor_handler env now rest).1,
           (process_record env now r).1 ++ (processor_handler env now rest).2)) ∧
    ((process_record env now r).2 = false →
      processor_handler env now (r :: rest)
        = (IngestOutcome.raised, (process_record env now r).1)) ∧
    (is_image_key r.key = false →
      processor_handler env now (r :: rest) = processor_handler env now rest) := by
  refine ⟨fun hok => ?_, fun hfail => ?_, fun hskip => ?_⟩
  · simp [processor_handler, hok]
  · simp [processor_handler, hfail]
  · simp [processor_handler, process_record, hskip]

/-- Witness for C2 (amended): the failing first record of the counterexample
batch aborts the invocation with its (empty) partial effects. -/
theorem batch_first_failure_aborts_witness :
    (process_record ingestFailEnv 7 { bucket := "src", key := "bad.jpg" }).2 = false ∧
    processor_handler ingestFailEnv 7
        [{ bucket := "src", key := "bad.jpg" }, { bucket := "src", key := "good.jpg" }]
      = (IngestOutcome.raised,
         (process_record ingestFailEnv 7 { bucket := "src", key := "bad.jpg" }).1) :=
  ⟨by decide,
   (batch_first_failure_aborts ingestFailEnv 7 { bucket := "src", key := "bad.jpg" }
     [{ bucket := "src", key := "good.jpg" }]).2.1 (by decide)⟩

/-- Claim C3: with the cache enabled and reachable, the positive entry
`meta:<sourceKey>` is checked strictly before the negative entry
`meta404:<sourceKey>` (the read log on a positive hit is just the positive
key), a hit on either entry answers with zero durable-store calls and no
write-back — the serialized record for a positive hit, the NotFound response
for a negative hit — and the positive conjuncts place no condition on the
negative entry, so a positive entry wins even when both exist. The same holds
for the lookup resolver when the positive entry is a serialized record with a
non-empty thumbnail key. -/
theorem cache_positive_before_negative (env : Env) (pk : String) (cv : JStr)
    (hcl : get_redis_client env = true) :
    (getTruthy (redis_get env ("meta:" ++ pk)) = some cv →
      meta_get_via_redis env pk
        = (resp 200 cv [] "application/json",
           { ddbCalls := 0, cacheReads := ["meta:" ++ pk], cacheWrites := [] })) ∧
    (getTruthy (redis_get env ("meta:" ++ pk)) = none →
     getTruthy (redis_get env ("meta404:" ++ pk)) = some cv →
      meta_get_via_redis env pk
        = (json_not_found,
           { ddbCalls := 0, cacheReads := ["meta:" ++ pk, "meta404:" ++ pk],
             cacheWrites := [] })) ∧
    (∀ it t, getTruthy (redis_get env ("meta:" ++ pk)) = some (JStr.jsonItem it) →
      it.thumb = some t → t ≠ "" →
      resolve_thumb_key env pk
        = ((some t, none),
           { ddbCalls := 0, cacheReads := ["meta:" ++ pk], cacheWrites := [] })) ∧
    (getTruthy (redis_get env ("meta:" ++ pk)) = none →
     getTruthy (redis_get env ("meta404:" ++ pk)) = some cv →
      resolve_thumb_key env pk
        = ((none, some json_not_found),
           { ddbCalls := 0, cacheReads := ["meta:" ++ pk, "meta404:" ++ pk],
             cacheWrites := [] })) := by
  refine ⟨fun hp => ?_, fun hp hn => ?_, fun it t hp hth hne => ?_, fun hp hn => ?_⟩
  · simp [meta_get_via_redis, hcl, hp]
  · simp [meta_get_via_redis, meta_neg_and_ddb, hcl, hp, hn]
  · simp [resolve_thumb_key, hcl, hp, json_loads_thumb, hth, hne]
  · simp [resolve_thumb_key, resolve_after_pos, hcl, hp, hn]

/-- Witness for C3 in a world where both a positive and a negative entry exist
for `a.jpg` and the durable store would error if touched: both lookups answer
from the positive entry with zero durable-store calls. -/
theorem cache_positive_before_negative_witness :
    meta_get_via_redis envPosBoth "a.jpg"
      = (resp 200 (JStr.jsonItem itA) [] "application/json",
         { ddbCalls := 0, cacheReads := ["meta:" ++ "a.jpg"], cacheWrites := [] }) ∧
    resolve_thumb_key envPosBoth "a.jpg"
      = ((some "resized/a-800.jpg", none),
         { ddbCalls := 0, cacheReads := ["meta:" ++ "a.jpg"], cacheWrites := [] }) :=
  ⟨(cache_positive_before_negative envPosBoth "a.jpg" (JStr.jsonItem itA)
      (by decide)).1 (by decide),
   (cache_positive_before_negative envPosBoth "a.jpg" (JStr.jsonItem itA)
      (by decide)).2.2.1 itA "resized/a-800.jpg" (by decide) (by decide) (by decide)⟩

/-- Claim C4: with the cache enabled and reachable and both entries absent,
the lookup reaches the durable store exactly once and writes back exactly one
cache entry — on found, the positive entry with the TTL-policy lifetime; on
not-found, the negative entry with the fixed 30-second lifetime — and returns
the durable-store result. The same holds for the lookup resolver. -/
theorem cache_writeback_exactly_one (env : Env) (pk : String)
    (hcl : get_redis_client env = true)
    (hpos : getTruthy (redis_get env ("meta:" ++ pk)) = none)
    (hneg : getTruthy (redis_get env ("meta404:" ++ pk)) = none) :
    (∀ it, env.ddb 0 = DdbResult.found it →
      meta_get_via_redis env pk
        = (jsonResp (JStr.jsonItem it) 200,
           { ddbCalls := 1, cacheReads := ["meta:" ++ pk, "meta404:" ++ pk],
             cacheWrites := [("meta:" ++ pk, cache_ttl_from_item env.now it,
               JStr.jsonItem it)] }) ∧
      resolve_thumb_key env pk
        = ((it.thumb, none),
           { ddbCalls := 1, cacheReads := ["meta:" ++ pk, "meta404:" ++ pk],
             cacheWrites := [("meta:" ++ pk, cache_ttl_from_item env.now it,
               JStr.jsonItem it)] })) ∧
    (env.ddb 0 = DdbResult.notFound →
      meta_get_via_redis env pk
        = (json_not_found,
           { ddbCalls := 1, cacheReads := ["meta:" ++ pk, "meta404:" ++ pk],
             cacheWrites := [("meta404:" ++ pk, 30, JStr.lit "1")] }) ∧
      resolve_thumb_key env pk
        = ((none, some json_not_found),
           { ddbCalls := 1, cacheReads := ["meta:" ++ pk, "meta404:" ++ pk],
             cacheWrites := [("meta404:" ++ pk, 30, JStr.lit "1")] })) := by
  refine ⟨fun it hd => ⟨?_, ?_⟩, fun hd => ⟨?_, ?_⟩⟩ <;>
    simp [meta_get_via_redis, meta_neg_and_ddb, resolve_thumb_key, resolve_after_pos,
      resolve_via_ddb, hcl, hpos, hneg, hd]

/-- Witness for C4: an empty cache in front of a store holding the record
yields a 200 with one positive write-back; an empty cache in front of a store
without the record yields a 404 with one negative write-back. -/
theorem cache_writeback_exactly_one_witness :
    meta_get_via_redis envDet "a.jpg"
      = (jsonResp (JStr.jsonItem itA) 200,
         { ddbCalls := 1, cacheReads := ["meta:" ++ "a.jpg", "meta404:" ++ "a.jpg"],
           cacheWrites := [("meta:" ++ "a.jpg", cache_ttl_from_item envDet.now itA,
             JStr.jsonItem itA)] }) ∧
    meta_get_via_redis envDetMissing "a.jpg"
      = (json_not_found,
         { ddbCalls := 1, cacheReads := ["meta:" ++ "a.jpg", "meta404:" ++ "a.jpg"],
           cacheWrites := [("meta404:" ++ "a.jpg", 30, JStr.lit "1")] }) :=
  ⟨((cache_writeback_exactly_one envDet "a.jpg" (by decide) (by decide)
      (by decide)).1 itA (by decide)).1,
   ((cache_writeback_exactly_one envDetMissing "a.jpg" (by decide) (by decide)
      (by decide)).2 (by decide)).1⟩

/-- Claim C5: metadata lookups fail open on the cache. With no usable client
the lookup is exactly one direct durable-store call; with the cache feature
disabled the GET route goes straight to the durable store; with every cache
read raising, the lookup still returns the durable-store result (the store
being deterministic within the invocation); and the result of a lookup never
depends on whether cache write-backs fail. -/
theorem cache_fail_open (env : Env) (pk : String) (f : String → Bool) :
    (get_redis_client env = false →
      meta_get_via_redis env pk
        = (meta_get_via_ddb env 0, { ddbCalls := 1, cacheReads := [], cacheWrites := [] })) ∧
    (env.enableRedis = false →
      handle_meta env pk "GET"
        = (meta_get_via_ddb env 0, { ddbCalls := 1, cacheReads := [], cacheWrites := [] })) ∧
    ((∀ i, env.ddb i = env.ddb 0) →
     env.cacheGet ("meta:" ++ pk) = CacheRead.err →
     env.cacheGet ("meta404:" ++ pk) = CacheRead.err →
      (meta_get_via_redis env pk).1 = meta_get_via_ddb env 0) ∧
    (meta_get_via_redis { env with cacheWriteFails := f } pk
      = meta_get_via_redis env pk) ∧
    (resolve_thumb_key { env with cacheWriteFails := f } pk
      = resolve_thumb_key env pk) := by
  refine ⟨fun h => ?_, fun h => ?_, fun hdet h1 h2 => ?_, rfl, rfl⟩
  · simp [meta_get_via_redis, h]
  · simp [handle_meta, h]
  · cases hcl : get_redis_client env with
    | false => simp [meta_get_via_redis, hcl]
    | true =>
      rcases hd : env.ddb 0 with _ | _ | it <;>
        simp [meta_get_via_redis, meta_neg_and_ddb, hcl, redis_get, getTruthy,
          h1, h2, hd, meta_get_via_ddb, hdet 1]

/-- Witness for C5: with the cache disabled the lookup is the direct store
call; with every cache read raising the lookup still returns the store result;
and flipping the write-failure oracle leaves the response unchanged. -/
theorem cache_fail_open_witness :
    meta_get_via_redis envNoRecord "a.jpg"
      = (meta_get_via_ddb envNoRecord 0, { ddbCalls := 1, cacheReads := [], cacheWrites := [] }) ∧
    (meta_get_via_redis envCacheErr "a.jpg").1 = meta_get_via_ddb envCacheErr 0 ∧
    meta_get_via_redis { envCacheErr with cacheWriteFails := fun _ => false } "a.jpg"
      = meta_get_via_redis envCacheErr "a.jpg" :=
  ⟨(cache_fail_open envNoRecord "a.jpg" (fun _ => false)).1 (by decide),
   (cache_fail_open envCacheErr "a.jpg" (fun _ => false)).2.2.1
     (fun i => rfl) (by decide) (by decide),
   (cache_fail_open envCacheErr "a.jpg" (fun _ => false)).2.2.2.1⟩

/-- Claim C6 (counterexample): the resolver is not the exact projection of the
cache layer's getMetadata. With an empty reachable cache and a durable store
that errors on the first call of the invocation and answers with the record on
the second, getMetadata retries through the direct store path and returns the
record (200), while the resolver propagates an internal error — so it fails to
return the thumbnail key exactly when getMetadata returns a record. -/
theorem resolver_projection_counterexample :
    (meta_get_via_redis envStoreFlaky "a.jpg").1 = jsonResp (JStr.jsonItem itA) 200 ∧
    (resolve_thumb_key envStoreFlaky "a.jpg").1 = (none, some json_internal_error) ∧
    (resolve_thumb_key envStoreFlaky "a.jpg").1
      ≠ lookup_spec_projection (meta_get_via_redis envStoreFlaky "a.jpg").1 := by
  exact ⟨by decide, by decide, by decide⟩

/-- After the positive entry yielded nothing usable, the resolver continuation
agrees with the projection of the getMetadata continuation whenever the
durable store is deterministic within the invocation. -/
theorem resolver_cont_agrees (env : Env) (pk : String)
    (hdet : ∀ i, env.ddb i = env.ddb 0) :
    (resolve_after_pos env pk).1 = lookup_spec_projection (meta_neg_and_ddb env pk).1 := by
  rcases hn : getTruthy (redis_get env ("meta404:" ++ pk)) with _ | nv
  · rcases hd : env.ddb 0 with _ | _ | it
    · have h1 : env.ddb 1 = DdbResult.err := by rw [hdet 1, hd]
      simp [resolve_after_pos, meta_neg_and_ddb, resolve_via_ddb, hn, hd,
        meta_get_via_ddb, h1, lookup_spec_projection, json_internal_error, jsonResp, resp]
    · simp [resolve_after_pos, meta_neg_and_ddb, resolve_via_ddb, hn, hd,
        lookup_spec_projection, json_not_found, jsonResp, resp]
    · simp [resolve_after_pos, meta_neg_and_ddb, resolve_via_ddb, hn, hd,
        lookup_spec_projection, jsonResp, resp, json_loads_thumb, truthy]
  · simp [resolve_after_pos, meta_neg_and_ddb, hn, lookup_spec_projection,
      json_not_found, jsonResp, resp]

/-- Claim C6 (amended): the lookup resolver equals the projection of the cache
layer's getMetadata — returning the `thumb` field of the record exactly when
getMetadata returns one and propagating NotFound/Error unchanged — on every
world in which (a) the durable store answers deterministically within the
invocation (so getMetadata's extra direct-store retry after a store error
cannot observe a different outcome) and (b) any truthy positive cache entry is
the serialization of a record with a non-empty thumbnail key (so the
resolver's guarded deserialization cannot silently skip an entry that
getMetadata would serve). Outside these conditions the two operations diverge,
as the counterexample shows. -/
theorem resolver_projection_amended (env : Env) (pk : String)
    (hdet : ∀ i, env.ddb i = env.ddb 0)
    (hcache : ∀ s, env.cacheGet ("meta:" ++ pk) = CacheRead.val s → truthy s = true →
      ∃ it t, s = JStr.jsonItem it ∧ it.thumb = some t ∧ t ≠ "") :
    (resolve_thumb_key env pk).1 = lookup_spec_projection (meta_get_via_redis env pk).1 := by
  cases hcl : get_redis_client env with
  | false =>
    rcases hd : env.ddb 0 with _ | _ | it <;>
      simp [resolve_thumb_key, meta_get_via_redis, resolve_via_ddb, meta_get_via_ddb,
        hcl, hd, lookup_spec_projection, json_internal_error, json_not_found,
        jsonResp, resp, json_loads_thumb, truthy]
  | true =>
    rcases hg : env.cacheGet ("meta:" ++ pk) with _ | _ | s
    · have hp : getTruthy (redis_get env ("meta:" ++ pk)) = none := by
        simp [redis_get, hg, getTruthy]
      simp only [resolve_thumb_key, meta_get_via_redis, hcl, if_true, hp]
      exact resolver_cont_agrees env pk hdet
    · have hp : getTruthy (redis_get env ("meta:" ++ pk)) = none := by
        simp [redis_get, hg, getTruthy]
      simp only [resolve_thumb_key, meta_get_via_redis, hcl, if_true, hp]
      exact resolver_cont_agrees env pk hdet
    · cases ht : truthy s with
      | false =>
        have hp : getTruthy (redis_get env ("meta:" ++ pk)) = none := by
          simp [redis_get, hg, getTruthy, ht]
        simp only [resolve_thumb_key, meta_get_via_redis, hcl, if_true, hp]
        exact resolver_cont_agrees env pk hdet
      | true =>
        obtain ⟨it, t, rfl, hth, hne⟩ := hcache s hg ht
        have hp : getTruthy (redis_get env ("meta:" ++ pk)) = some (JStr.jsonItem it) := by
          simp [redis_get, hg, getTruthy, truthy]
        simp [resolve_thumb_key, meta_get_via_redis, hcl, hp, json_loads_thumb,
          hth, hne, lookup_spec_projection, resp, Option.join, truthy]

/-- Witness for C6 (amended) on a deterministic world: empty reachable cache,
durable store holding the record on every call. -/
theorem resolver_projection_amended_witness :
    (resolve_thumb_key envDet "a.jpg").1
      = lookup_spec_projection (meta_get_via_redis envDet "a.jpg").1 :=
  resolver_projection_amended envDet "a.jpg" (fun _ => rfl) (fun _ hs _ => nomatch hs)

/-- The rounded scaled dimension never exceeds the target when the other
dimension is the larger one. -/
theorem round_div_le (w h : Nat) (hw : 0 < w) (hhw : h ≤ w) :
    (800 * h + w / 2) / w ≤ 800 := by
  have h2 : 800 * h ≤ 800 * w := Nat.mul_le_mul_left _ hhw
  have h3 : w / 2 < w := Nat.div_lt_self hw (by norm_num)
  have h1 : 800 * h + w / 2 < 801 * w := by omega
  have := (Nat.div_lt_iff_lt_mul hw).2 h1
  omega

/-- The rounded scaled dimension stays within one unit of the exact aspect
ratio: `|round(800*h/w) * w - 800*h| ≤ w`. -/
theorem round_div_aspect (w h : Nat) (hw : 0 < w) :
    |((max 1 ((800 * h + w / 2) / w) : Nat) : Int) * w - 800 * h| ≤ w := by
  have e : w * ((800 * h + w / 2) / w) + (800 * h + w / 2) % w = 800 * h + w / 2 :=
    Nat.div_add_mod _ _
  have hr : (800 * h + w / 2) % w < w := Nat.mod_lt _ hw
  rcases Nat.eq_zero_or_pos ((800 * h + w / 2) / w) with hq0 | hq1
  · rw [hq0] at e ⊢
    rw [Nat.max_eq_left (Nat.zero_le 1), abs_le]
    constructor <;> push_cast <;> omega
  · rw [Nat.max_eq_right hq1, abs_le]
    have hds : w / 2 ≤ w := Nat.div_le_self w 2
    generalize hd : w / 2 = d at e hds hr ⊢
    generalize hqg : (800 * h + d) / w = q at e ⊢
    generalize hrg : (800 * h + d) % w = r at e hr
    zify at e hr hds
    constructor <;>
      linarith [e, hr, hds, Int.natCast_nonneg r, Int.natCast_nonneg d]

/-- Claim C9: on every decodable input image the transform emits a JPEG at
quality 85 with optimized encoding whose dimensions never exceed 800; an image
already fitting in 800x800 keeps its exact dimensions (no upscaling); and an
image with a dimension above 800 gets its larger output dimension set to
exactly 800 with the other dimension following the aspect ratio within
rounding (within one unit once scaled back). -/
theorem transform_bounds (w h : Nat) (hw : 0 < w) (hh : 0 < h) :
    (resize_to_jpeg w h).quality = 85 ∧ (resize_to_jpeg w h).optimize = true ∧
    (resize_to_jpeg w h).width ≤ 800 ∧ (resize_to_jpeg w h).height ≤ 800 ∧
    (w ≤ 800 → h ≤ 800 →
      (resize_to_jpeg w h).width = w ∧ (resize_to_jpeg w h).height = h) ∧
    (800 < w → h ≤ w → (resize_to_jpeg w h).width = 800 ∧
      |((resize_to_jpeg w h).height : Int) * w - 800 * h| ≤ w) ∧
    (800 < h → w < h → (resize_to_jpeg w h).height = 800 ∧
      |((resize_to_jpeg w h).width : Int) * h - 800 * w| ≤ h) ∧
    (800 < w ∨ 800 < h →
      max (resize_to_jpeg w h).width (resize_to_jpeg w h).height = 800) := by
  by_cases hfit : w ≤ 800 ∧ h ≤ 800
  · have hts : thumbnail_size w h 800 = (w, h) := by
      simp [thumbnail_size, hfit]
    refine ⟨rfl, rfl, ?_, ?_, fun _ _ => ?_, fun hbig _ => ?_, fun hbig _ => ?_, fun hbig => ?_⟩
    · simp [resize_to_jpeg, hts, hfit.1]
    · simp [resize_to_jpeg, hts, hfit.2]
    · simp [resize_to_jpeg, hts]
    · omega
    · omega
    · omega
  · by_cases hhw : h ≤ w
    · have hwbig : 800 < w := by omega
      have hts : thumbnail_size w h 800 = (800, max 1 ((800 * h + w / 2) / w)) := by
        simp [thumbnail_size, hfit, hhw]
      have hle : (800 * h + w / 2) / w ≤ 800 := round_div_le w h hw hhw
      have hdim : max 1 ((800 * h + w / 2) / w) ≤ 800 := by omega
      refine ⟨rfl, rfl, ?_, ?_, fun hc _ => ?_, fun _ _ => ⟨?_, ?_⟩, fun _ hlt => ?_, fun _ => ?_⟩
      · simp [resize_to_jpeg, hts]
      · simp [resize_to_jpeg, hts, hdim]
      · omega
      · simp [resize_to_jpeg, hts]
      · simpa [resize_to_jpeg, hts] using round_div_aspect w h hw
      · omega
      · simp [resize_to_jpeg, hts]
        omega
    · have hwh : w < h := by omega
      have hhbig : 800 < h := by omega
      have hts : thumbnail_size w h 800 = (max 1 ((800 * w + h / 2) / h), 800) := by
        simp [thumbnail_size, hfit, hhw]
      have hle : (800 * w + h / 2) / h ≤ 800 := round_div_le h w hh (le_of_lt hwh)
      have hdim : max 1 ((800 * w + h / 2) / h) ≤ 800 := by omega
      refine ⟨rfl, rfl, ?_, ?_, fun _ hc => ?_, fun hc hcc => ?_, fun _ _ => ⟨?_, ?_⟩, fun _ => ?_⟩
      · simp [resize_to_jpeg, hts, hdim]
      · simp [resize_to_jpeg, hts]
      · omega
      · omega
      · simp [resize_to_jpeg, hts]
      · simpa [resize_to_jpeg, hts] using round_div_aspect h w hh
      · simp [resize_to_jpeg, hts]
        omega

/-- Witness for C9 at concrete images: a 1600x1200 image is scaled to 800x600
with the aspect bound holding, and a 500x300 image is unchanged. -/
theorem transform_bounds_witness :
    (resize_to_jpeg 1600 1200).quality = 85 ∧
    (resize_to_jpeg 1600 1200).width = 800 ∧
    |((resize_to_jpeg 1600 1200).height : Int) * 1600 - 800 * 1200| ≤ 1600 ∧
    (resize_to_jpeg 500 300).width = 500 ∧ (resize_to_jpeg 500 300).height = 300 :=
  ⟨(transform_bounds 1600 1200 (by decide) (by decide)).1,
   ((transform_bounds 1600 1200 (by decide) (by decide)).2.2.2.2.2.1
     (by decide) (by decide)).1,
   ((transform_bounds 1600 1200 (by decide) (by decide)).2.2.2.2.2.1
     (by decide) (by decide)).2,
   ((transform_bounds 500 300 (by decide) (by decide)).2.2.2.2.1
     (by decide) (by decide)).1,
   ((transform_bounds 500 300 (by decide) (by decide)).2.2.2.2.1
     (by decide) (by decide)).2⟩

/-- A filter by key-disequality keeps a Content-Type entry when the excluded
key is not Content-Type. -/
theorem any_ct_filter (l : List (String × String)) (bad : String)
    (hbad : bad ≠ "Content-Type")
    (h : l.any (fun p => p.1 == "Content-Type") = true) :
    (l.filter (fun p => p.1 != bad)).any (fun p => p.1 == "Content-Type") = true := by
  induction l with
  | nil => simp at h
  | cons x xs ih =>
    cases hx : (x.1 == "Content-Type") with
    | false =>
      have h' : xs.any (fun p => p.1 == "Content-Type") = true := by
        simpa [List.any_cons, hx] using h
      by_cases hxb : (x.1 != bad) = true
      · simp [List.filter_cons, hxb, List.any_cons, hx, ih h']
      · simp [List.filter_cons, hxb, ih h']
    | true =>
      have hx1 : x.1 = "Content-Type" := by simpa using hx
      have hkeep : (x.1 != bad) = true := by
        simp only [bne_iff_ne, hx1, ne_eq]
        exact fun hc => hbad hc.symm
      simp [List.filter_cons, hkeep, List.any_cons, hx]

/-- Python dict.update never removes an existing Content-Type entry. -/
theorem hasCT_dictUpdate (over : List (String × String)) :
    ∀ base, base.any (fun p => p.1 == "Content-Type") = true →
      (dictUpdate base over).any (fun p => p.1 == "Content-Type") = true := by
  induction over with
  | nil => exact fun base h => h
  | cons kv over ih =>
    intro base h
    have step : dictUpdate base (kv :: over)
        = dictUpdate (base.filter (fun p => p.1 != kv.1) ++ [kv]) over := rfl
    rw [step]
    apply ih
    by_cases hk : kv.1 = "Content-Type"
    · simp [List.any_append, hk]
    · rw [List.any_append]
      have := any_ct_filter base kv.1 hk h
      simp [this]

/-- Every response built by `_resp` carries a Content-Type entry. -/
theorem hasCT_resp (st : Nat) (b : JStr) (hs : List (String × String)) (ct : String) :
    hasCT (resp st b hs ct) = true := by
  simp only [hasCT, resp]
  apply hasCT_dictUpdate
  simp

theorem hasCT_meta_get_via_ddb (env : Env) (i : Nat) :
    hasCT (meta_get_via_ddb env i) = true := by
  rcases hd : env.ddb i with _ | _ | it <;>
    simp [meta_get_via_ddb, hd, json_internal_error, json_not_found, jsonResp, hasCT_resp]

theorem hasCT_meta_neg_and_ddb (env : Env) (pk : String) :
    hasCT (meta_neg_and_ddb env pk).1 = true := by
  unfold meta_neg_and_ddb
  rcases hn : getTruthy (redis_get env ("meta404:" ++ pk)) with _ | nv <;>
    rcases hd : env.ddb 0 with _ | _ | it <;>
      simp [hn, hd, json_not_found, jsonResp, hasCT_resp, hasCT_meta_get_via_ddb]

theorem hasCT_meta_get_via_redis (env : Env) (pk : String) :
    hasCT (meta_get_via_redis env pk).1 = true := by
  unfold meta_get_via_redis
  cases hcl : get_redis_client env <;>
    rcases hp : getTruthy (redis_get env ("meta:" ++ pk)) with _ | cv <;>
      simp [hp, hasCT_resp, hasCT_meta_neg_and_ddb, hasCT_meta_get_via_ddb]

theorem hasCT_handle_meta (env : Env) (k m : String) :
    hasCT (handle_meta env k m).1 = true := by
  unfold handle_meta
  by_cases hg : m = "GET"
  · cases hr : env.enableRedis <;>
      simp [hg, hr, hasCT_meta_get_via_redis, hasCT_meta_get_via_ddb]
  · by_cases hh : m = "HEAD"
    · rcases hd : env.ddb 0 with _ | _ | it <;>
        simp [hg, hh, hd, json_internal_error, json_not_found, jsonResp, hasCT_resp]
    · simp [hg, hh, hasCT_resp]

theorem hasCT_img_get_via_s3 (env : Env) (k : String) :
    hasCT (img_get_via_s3 env k) = true := by
  rcases hp : env.presign k with _ | url <;>
    simp [img_get_via_s3, hp, json_internal_error, jsonResp, hasCT_resp]

theorem hasCT_img_get_via_cf (env : Env) (k : String) :
    hasCT (img_get_via_cf env k) = true := by
  by_cases hc : env.cfDomain = "" <;>
    simp [img_get_via_cf, hc, jsonResp, hasCT_resp]

theorem hasCT_json_not_found : hasCT json_not_found = true := by decide

theorem hasCT_json_internal_error : hasCT json_internal_error = true := by decide

/-- The error component of the resolver is always one of the two canonical
error responses. -/
theorem resolve_snd_cases (env : Env) (pk : String) :
    (resolve_thumb_key env pk).1.2 = none ∨
    (resolve_thumb_key env pk).1.2 = some json_not_found ∨
    (resolve_thumb_key env pk).1.2 = some json_internal_error := by
  unfold resolve_thumb_key resolve_after_pos resolve_via_ddb
  repeat' split
  all_goals
    rcases hn : getTruthy (redis_get env ("meta404:" ++ pk)) with _ | nv <;> simp [hn]

theorem hasCT_resolve_err (env : Env) (pk : String) (e : Response)
    (h : (resolve_thumb_key env pk).1.2 = some e) : hasCT e = true := by
  rcases resolve_snd_cases env pk with h0 | h0 | h0 <;> rw [h] at h0
  · cases h0
  · injection h0 with he
    subst he
    decide
  · injection h0 with he
    subst he
    decide

theorem hasCT_handle_img (env : Env) (k m : String) :
    hasCT (handle_img env k m).1 = true := by
  unfold handle_img
  dsimp only
  repeat' split
  all_goals try exact hasCT_resp _ _ _ _
  all_goals try exact hasCT_img_get_via_cf env _
  all_goals try exact hasCT_img_get_via_s3 env _
  all_goals
    rename_i heq
    exact hasCT_resolve_err env k _ heq

/-- Claim C10: for every invocation event and world, the Read Service handler
totally returns a response whose header map contains a Content-Type entry (the
body is a string by construction of the embedding), and an event on which
extraction raises is answered with status 400 rather than propagating the
exception. -/
theorem reader_handler_total_shape (env : Env) (e : ReqEvent) :
    hasCT (reader_handler env e).1 = true ∧
    (e = ReqEvent.bad → (reader_handler env e).1.statusCode = 400) := by
  constructor
  · cases e with
    | bad =>
      exact hasCT_resp 400 (JStr.lit "\x7b\"error\": \"invalid request\"\x7d")
        [] "application/json"
    | ok rawPath path rcM httpM params =>
      unfold reader_handler
      simp only [extract]
      split
      · exact hasCT_resp 200 (JStr.lit "\x7b\"ok\": true\x7d") [] "application/json"
      · rcases hk : getTruthy ((pyOr ((params.getD []).lookup "key")
            ((params.getD []).lookup "proxy")).map JStr.lit) with _ | kv
        · simp only [hk]
          exact hasCT_resp 400 (JStr.lit "\x7b\"error\": \"missing key\"\x7d")
            [] "application/json"
        · simp only [hk]
          split
          · exact hasCT_handle_meta env _ _
          · split
            · exact hasCT_handle_img env _ _
            · exact hasCT_json_not_found
  · intro hbad
    subst hbad
    rfl

/-- Witness for C10: the malformed event is answered 400 with a Content-Type
header present. -/
theorem reader_handler_total_shape_witness :
    hasCT (reader_handler envNoRecord ReqEvent.bad).1 = true ∧
    (reader_handler envNoRecord ReqEvent.bad).1.statusCode = 400 :=
  ⟨(reader_handler_total_shape envNoRecord ReqEvent.bad).1,
   (reader_handler_total_shape envNoRecord ReqEvent.bad).2 rfl⟩
